import Mathlib

/-!
# Trusted-UI control channel (`drivers/gud/gud-exynos9830/TlcTui/main.c`)

A shallow embedding of `tui_ioctl`, `tui_open`, `tui_release` and of the counter
set-up done by `tlc_tui_init`, followed by the properties of the control-channel
protocol and of the session counter.

Conventions of the embedding.

* Kernel `int`/`long` status values are `Int`; `unsigned int`/`unsigned long`/`u32`
  values are `Nat`.  The only arithmetic performed on a machine integer is the
  increment/decrement of the `atomic_t fileopened`, which is modelled with explicit
  32-bit two's-complement wrap-around.
* The functions the driver calls but does not define (`tlc_notify_event`,
  `tlc_wait_cmd`, `tlc_ack_cmd`, `tlc_init_driver`, `get_buffer_info`, the resolver
  behind `fptr_get_fd`, `copy_to_user`, `copy_from_user`) are fields of an
  environment `Env σ`; they are arbitrary functions over an arbitrary world state
  `σ`, which is threaded through the calls in program order.
* Every call to one of these functions is recorded, in order, in a trace.
* Automatic variables that the C code does not set before use (`rsp_id`,
  `buff_info`, `ion`) start with the indeterminate contents given by `Stack`.
* `pr_info`/`pr_debug` only log and are left out.
-/

namespace TlcTui

/-! ## Kernel constants -/

/-- The errno value `EINVAL` of `uapi/asm-generic/errno-base.h`. -/
def EINVAL : Int := 22

/-- The errno value `ENOTTY` of `uapi/asm-generic/errno-base.h`. -/
def ENOTTY : Int := 25

/-- The errno value `EFAULT` of `uapi/asm-generic/errno-base.h`. -/
def EFAULT : Int := 14

/-- The macro `_IOC_TYPE(nr)` of `uapi/asm-generic/ioctl.h`:
`(nr >> _IOC_TYPESHIFT) & _IOC_TYPEMASK` with shift 8 and mask `0xff`. -/
def _IOC_TYPE (cmd : Nat) : Nat := (cmd >>> 8) &&& 0xff

/-! ## Data crossing the channel -/

/-- Modelled from the spec: `struct tlc_tui_command_t` is declared in `tlcTui.h`,
which is not part of the sources; §3 gives a Command as an integer identifier plus
opaque payload fields.  The payload is kept as one number. -/
structure tlc_tui_command_t where
  id : Nat
  data : Nat
deriving DecidableEq, Repr

/-- Modelled from the spec: `struct tlc_tui_response_t` is declared in `tlcTui.h`,
which is not part of the sources; §3 gives an Acknowledgment as an integer
identifier. -/
structure tlc_tui_response_t where
  id : Nat
deriving DecidableEq, Repr

/-- Modelled from the spec: `struct tlc_tui_ioctl_buffer_info` is declared in
`tlcTui.h`, which is not part of the sources; §3 gives BufferInfo as a set of buffer
descriptors (addresses, sizes, counts), kept here as a list of numbers. -/
structure tlc_tui_ioctl_buffer_info where
  descriptors : List Nat
deriving DecidableEq, Repr

/-- Modelled from the spec: `struct tlc_tui_ioctl_ion_t` is declared in `tlcTui.h`,
which is not part of the sources; the code uses its member `buffer_fd`, which
receives the `int` returned by the resolver, and §3 gives a BufferHandle as one
transferable reference. -/
structure tlc_tui_ioctl_ion_t where
  buffer_fd : Int
deriving DecidableEq, Repr

/-- The value of `struct tlc_tui_command_t tui_cmd = {0};`. -/
def tlc_tui_command_t.zero : tlc_tui_command_t := ⟨0, 0⟩

/-- What a `copy_to_user` call hands to the caller: the kernel object whose bytes
are copied, in full (`sizeof` of the object in all three calls). -/
inductive UserObj where
  | command (c : tlc_tui_command_t)
  | buffer_info (b : tlc_tui_ioctl_buffer_info)
  | ion (i : tlc_tui_ioctl_ion_t)
deriving DecidableEq, Repr

/-- One call made by the driver to a function it does not define. -/
inductive Call where
  | tlc_notify_event (event : Nat)
  | tlc_wait_cmd
  | tlc_ack_cmd (rsp : tlc_tui_response_t)
  | tlc_init_driver
  | get_buffer_info
  | fptr_get_fd (buff_id : Nat)
  | copy_to_user (uarg : Nat) (obj : UserObj)
  | copy_from_user (uarg : Nat)
deriving DecidableEq, Repr

/-! ## Constants of `tlcTui.h` -/

/-- The request words and event tags that `main.c` takes from `tlcTui.h`, which is
not part of the sources.  They are parameters of the embedding. -/
structure TuiConsts where
  TUI_IO_MAGIC : Nat
  TUI_IO_SET_RESOLUTION : Nat
  TUI_IO_NOTIFY : Nat
  TUI_IO_WAITCMD : Nat
  TUI_IO_ACK : Nat
  TUI_IO_INIT_DRIVER : Nat
  TUI_IO_GET_BUFFER_INFO : Nat
  TUI_IO_GET_ION_FD : Nat
  NOT_TUI_CANCEL_EVENT : Nat
deriving DecidableEq, Repr

/-- The seven `case` labels of the `switch` in `tui_ioctl`, in source order. -/
def TuiConsts.requests (k : TuiConsts) : List Nat :=
  [k.TUI_IO_SET_RESOLUTION, k.TUI_IO_NOTIFY, k.TUI_IO_WAITCMD, k.TUI_IO_ACK,
   k.TUI_IO_INIT_DRIVER, k.TUI_IO_GET_BUFFER_INFO, k.TUI_IO_GET_ION_FD]

/-- What the C compiler and the `_IO*` macros guarantee of the request words: the
`case` labels of one `switch` are pairwise different, and each word is built with
the family tag `TUI_IO_MAGIC`. -/
def TuiConsts.WellFormed (k : TuiConsts) : Prop :=
  k.requests.Nodup ∧ ∀ c ∈ k.requests, _IOC_TYPE c = k.TUI_IO_MAGIC

instance (k : TuiConsts) : Decidable k.WellFormed := by
  unfold TuiConsts.WellFormed; infer_instance

/-! ## Collaborators -/

/-- The functions `main.c` calls and does not define, over a world state `σ`
(relay queue, DCI buffer, caller address space, file-descriptor table, ...).

* `tlc_notify_event w event` is the truth value of the C result and the new world.
* `tlc_wait_cmd w c` receives the contents of `*cmd` on entry and gives the status,
  the contents of `*cmd` on return, and the new world.  (A call that never returns
  has no outcome and is outside the model.)
* `tlc_ack_cmd w rsp` and `tlc_init_driver w` give the status and the new world.
* `get_buffer_info w b` receives the contents of the struct on entry and gives its
  contents on return.
* `dci_buff_id w` is the value read by `dci->buff_id`; `dci` is defined outside
  these sources and is taken to point to the DCI record.
* `fptr_get_fd` is the global function pointer, `none` for `NULL`.
* `copy_to_user w uarg obj` gives the number of bytes that could not be copied
  (zero on success) and the new world.
* `copy_from_user w dst uarg` receives the contents of the kernel buffer on entry
  and gives the number of bytes that could not be copied, the contents of the
  kernel buffer afterwards, and the new world. -/
structure Env (σ : Type) where
  tlc_notify_event : σ → Nat → Bool × σ
  tlc_wait_cmd : σ → tlc_tui_command_t → Int × tlc_tui_command_t × σ
  tlc_ack_cmd : σ → tlc_tui_response_t → Int × σ
  tlc_init_driver : σ → Int × σ
  get_buffer_info : σ → tlc_tui_ioctl_buffer_info → tlc_tui_ioctl_buffer_info × σ
  dci_buff_id : σ → Nat
  fptr_get_fd : Option (σ → Nat → Int × σ)
  copy_to_user : σ → Nat → UserObj → Nat × σ
  copy_from_user : σ → tlc_tui_response_t → Nat → Nat × tlc_tui_response_t × σ

/-- Indeterminate initial contents of the automatic variables of `tui_ioctl` that
are declared without an initialiser. -/
structure Stack where
  rsp_id : tlc_tui_response_t
  buff_info : tlc_tui_ioctl_buffer_info
  ion : tlc_tui_ioctl_ion_t
deriving DecidableEq, Repr

/-- Result of one driver entry point: the value returned to the caller, the world
afterwards, and the calls made, in order. -/
structure Outcome (σ : Type) where
  ret : Int
  world : σ
  trace : List Call

/-! ## `tui_ioctl` -/

/-- The function `tui_ioctl(f, cmd, arg)`.  `uarg` is `arg` seen as a user pointer. -/
def tui_ioctl {σ : Type} (k : TuiConsts) (env : Env σ) (stk : Stack) (w : σ)
    (cmd arg : Nat) : Outcome σ :=
  if _IOC_TYPE cmd ≠ k.TUI_IO_MAGIC then
    ⟨-EINVAL, w, []⟩
  else if cmd = k.TUI_IO_SET_RESOLUTION then
    ⟨0, w, []⟩
  else if cmd = k.TUI_IO_NOTIFY then
    let r := env.tlc_notify_event w arg
    ⟨if r.1 then 0 else -EFAULT, r.2, [Call.tlc_notify_event arg]⟩
  else if cmd = k.TUI_IO_WAITCMD then
    let r := env.tlc_wait_cmd w tlc_tui_command_t.zero
    let ret := r.1
    let tui_cmd := r.2.1
    if ret ≠ 0 then
      ⟨ret, r.2.2, [Call.tlc_wait_cmd]⟩
    else
      let c := env.copy_to_user r.2.2 arg (UserObj.command tui_cmd)
      ⟨if c.1 ≠ 0 then -EFAULT else 0, c.2,
        [Call.tlc_wait_cmd, Call.copy_to_user arg (UserObj.command tui_cmd)]⟩
  else if cmd = k.TUI_IO_ACK then
    let c := env.copy_from_user w stk.rsp_id arg
    let rsp_id := c.2.1
    -- `ret` is set to `-EFAULT` or `0` here and overwritten by the next assignment
    let a := env.tlc_ack_cmd c.2.2 rsp_id
    let ret := a.1
    ⟨ret, a.2, [Call.copy_from_user arg, Call.tlc_ack_cmd rsp_id]⟩
  else if cmd = k.TUI_IO_INIT_DRIVER then
    let r := env.tlc_init_driver w
    ⟨r.1, r.2, [Call.tlc_init_driver]⟩
  else if cmd = k.TUI_IO_GET_BUFFER_INFO then
    let g := env.get_buffer_info w stk.buff_info
    let buff_info := g.1
    let c := env.copy_to_user g.2 arg (UserObj.buffer_info buff_info)
    ⟨if c.1 ≠ 0 then -EFAULT else 0, c.2,
      [Call.get_buffer_info, Call.copy_to_user arg (UserObj.buffer_info buff_info)]⟩
  else if cmd = k.TUI_IO_GET_ION_FD then
    let buff_id := env.dci_buff_id w
    match env.fptr_get_fd with
    | some get_fd =>
      let r := get_fd w buff_id
      let ion : tlc_tui_ioctl_ion_t := { stk.ion with buffer_fd := r.1 }
      let c := env.copy_to_user r.2 arg (UserObj.ion ion)
      ⟨if c.1 ≠ 0 then -EFAULT else 0, c.2,
        [Call.fptr_get_fd buff_id, Call.copy_to_user arg (UserObj.ion ion)]⟩
    | none =>
      let ion : tlc_tui_ioctl_ion_t := stk.ion
      let c := env.copy_to_user w arg (UserObj.ion ion)
      ⟨if c.1 ≠ 0 then -EFAULT else 0, c.2,
        [Call.copy_to_user arg (UserObj.ion ion)]⟩
  else
    ⟨-ENOTTY, w, []⟩

/-! ## Session counter -/

/-- Reduction of an integer to the range of a 32-bit `int` (two's complement), the
representation of the counter of an `atomic_t`. -/
def atomic_wrap (x : Int) : Int := (x + 2147483648) % 4294967296 - 2147483648

/-- The kernel primitive `atomic_set(v, i)`: the new value of the counter. -/
def atomic_set (i : Int) : Int := atomic_wrap i

/-- The kernel primitive `atomic_inc(v)`: the new value of the counter. -/
def atomic_inc (v : Int) : Int := atomic_wrap (v + 1)

/-- The kernel primitive `atomic_dec_and_test(v)`: whether the decremented counter
is zero, and the decremented counter. -/
def atomic_dec_and_test (v : Int) : Bool × Int :=
  (atomic_wrap (v - 1) == 0, atomic_wrap (v - 1))

/-- The state of the module: the global `atomic_t fileopened` and the world of the
collaborators. -/
structure TuiState (σ : Type) where
  fileopened : Int
  world : σ

/-- What `tlc_tui_init` does to the session counter: `atomic_set(&fileopened, 0)`.
The device registration that follows does not touch the counter. -/
def tlc_tui_init {σ : Type} (w : σ) : TuiState σ :=
  ⟨atomic_set 0, w⟩

/-- The function `tui_open(inode, file)`: value returned, new state, calls made. -/
def tui_open {σ : Type} (s : TuiState σ) : Int × TuiState σ × List Call :=
  (0, ⟨atomic_inc s.fileopened, s.world⟩, [])

/-- The function `tui_release(inode, file)`: value returned, new state, calls made.
The result of `tlc_notify_event` is not looked at. -/
def tui_release {σ : Type} (k : TuiConsts) (env : Env σ) (s : TuiState σ) :
    Int × TuiState σ × List Call :=
  let d := atomic_dec_and_test s.fileopened
  if d.1 then
    let r := env.tlc_notify_event s.world k.NOT_TUI_CANCEL_EVENT
    (0, ⟨d.2, r.2⟩, [Call.tlc_notify_event k.NOT_TUI_CANCEL_EVENT])
  else
    (0, ⟨d.2, s.world⟩, [])

/-- One file operation on the control device. -/
inductive FileOp where
  | opened
  | released
deriving DecidableEq, Repr

/-- One step of a sequence of file operations: the state after the call and the
trace extended by the calls it made. -/
def fileStep {σ : Type} (k : TuiConsts) (env : Env σ) (st : TuiState σ × List Call)
    (op : FileOp) : TuiState σ × List Call :=
  match op with
  | FileOp.opened => ((tui_open st.1).2.1, st.2 ++ (tui_open st.1).2.2)
  | FileOp.released => ((tui_release k env st.1).2.1, st.2 ++ (tui_release k env st.1).2.2)

/-- A sequence of `tui_open`/`tui_release` calls applied after module start. -/
def runFileOps {σ : Type} (k : TuiConsts) (env : Env σ) (w : σ) (ops : List FileOp) :
    TuiState σ × List Call :=
  ops.foldl (fileStep k env) (tlc_tui_init w, [])

/-- SessionCount observed after a sequence of file operations. -/
def SessionCount {σ : Type} (k : TuiConsts) (env : Env σ) (w : σ) (ops : List FileOp) :
    Int :=
  (runFileOps k env w ops).1.fileopened

/-- Number of `tui_open` calls in a sequence. -/
def opens (ops : List FileOp) : Nat := ops.count FileOp.opened

/-- Number of `tui_release` calls in a sequence. -/
def closes (ops : List FileOp) : Nat := ops.count FileOp.released

/-- An assignment of the constants of `tlcTui.h`: family tag `0x74`, request numbers
1 to 7, cancel event 1. -/
def sampleConsts : TuiConsts where
  TUI_IO_MAGIC := 0x74
  TUI_IO_NOTIFY := 0x7401
  TUI_IO_WAITCMD := 0x7402
  TUI_IO_ACK := 0x7403
  TUI_IO_INIT_DRIVER := 0x7404
  TUI_IO_SET_RESOLUTION := 0x7405
  TUI_IO_GET_BUFFER_INFO := 0x7406
  TUI_IO_GET_ION_FD := 0x7407
  NOT_TUI_CANCEL_EVENT := 1

/-- State of the relay and of the caller used in the concrete runs.
`queue` holds the commands the secure side will produce, `outstanding` the identifier
retrieved and not yet acknowledged, `user_acks` the Acknowledgments readable in the
caller's memory by address, `user_out` the objects written to the caller's memory,
`events` the events accepted by the relay. -/
structure SampleWorld where
  established : Bool
  queue : List tlc_tui_command_t
  outstanding : Option Nat
  buff_id : Nat
  info : tlc_tui_ioctl_buffer_info
  user_acks : List (Nat × tlc_tui_response_t)
  user_out : List (Nat × UserObj)
  events : List Nat
deriving DecidableEq, Repr

/-- Modelled from the spec: the Command Relay (`tlc_wait_cmd`, `tlc_ack_cmd`,
`tlc_init_driver`, `tlc_notify_event` of `tlcTui.c`) and the Buffer Directory
(`get_buffer_info`) are not part of the sources.  Following §3 and §4.3,
`produce_next` hands out the next queued Command and records its identifier as
outstanding (a fault when nothing is queued), `accept_ack` accepts exactly the
outstanding identifier and rejects an unknown or already acknowledged one,
`establish_session` succeeds, and `accept_event` accepts an event once the session
is established.  A user address can be written when it is not zero and can be read
when an Acknowledgment is stored there; a failed read leaves the kernel buffer
cleared, as `copy_from_user` does. -/
def sampleEnv (resolver : Option (Nat → Int)) : Env SampleWorld where
  tlc_notify_event := fun w e =>
    if w.established then (true, { w with events := w.events ++ [e] }) else (false, w)
  tlc_wait_cmd := fun w c =>
    match w.queue with
    | [] => (-EFAULT, c, w)
    | x :: rest => (0, x, { w with queue := rest, outstanding := some x.id })
  tlc_ack_cmd := fun w rsp =>
    if w.outstanding = some rsp.id then (0, { w with outstanding := none })
    else (-EINVAL, w)
  tlc_init_driver := fun w => (0, { w with established := true })
  get_buffer_info := fun w _ => (w.info, w)
  dci_buff_id := fun w => w.buff_id
  fptr_get_fd := resolver.map (fun f w b => (f b, w))
  copy_to_user := fun w uarg obj =>
    if uarg = 0 then (1, w) else (0, { w with user_out := w.user_out ++ [(uarg, obj)] })
  copy_from_user := fun w _ uarg =>
    match w.user_acks.lookup uarg with
    | some r => (0, r, w)
    | none => (1, ⟨0⟩, w)

/-- A world at module start: nothing established, one Command with identifier 7
queued, buffer identifier 3 recorded, an Acknowledgment for identifier 7 stored at
user address `0x1000`. -/
def sampleWorld : SampleWorld where
  established := false
  queue := [⟨7, 0⟩]
  outstanding := none
  buff_id := 3
  info := ⟨[]⟩
  user_acks := [(0x1000, ⟨7⟩)]
  user_out := []
  events := []

/-- Stack contents used in the concrete runs. -/
def sampleStack : Stack := ⟨⟨0⟩, ⟨[]⟩, ⟨0⟩⟩

/-- The world of the concrete run after `TUI_IO_INIT_DRIVER`. -/
def afterInit : SampleWorld :=
  (tui_ioctl sampleConsts (sampleEnv none) sampleStack sampleWorld
    sampleConsts.TUI_IO_INIT_DRIVER 0).world

/-- The world of the concrete run after `TUI_IO_INIT_DRIVER` and `TUI_IO_WAITCMD`. -/
def afterWait : SampleWorld :=
  (tui_ioctl sampleConsts (sampleEnv none) sampleStack afterInit
    sampleConsts.TUI_IO_WAITCMD 0x2000).world

/-- The world of the concrete run after `TUI_IO_INIT_DRIVER`, `TUI_IO_WAITCMD` and
one `TUI_IO_ACK` of the Acknowledgment stored at `0x1000`. -/
def afterAck : SampleWorld :=
  (tui_ioctl sampleConsts (sampleEnv none) sampleStack afterWait
    sampleConsts.TUI_IO_ACK 0x1000).world

/-- A world in which the Command with identifier 0 is retrieved and not yet
acknowledged. -/
def awaitingAckZero : SampleWorld :=
  { sampleWorld with established := true, outstanding := some 0 }

/-! ## Evaluation of `tui_ioctl` request by request -/

theorem wellFormed_facts {k : TuiConsts} (h : k.WellFormed) :
    (_IOC_TYPE k.TUI_IO_SET_RESOLUTION = k.TUI_IO_MAGIC ∧
     _IOC_TYPE k.TUI_IO_NOTIFY = k.TUI_IO_MAGIC ∧
     _IOC_TYPE k.TUI_IO_WAITCMD = k.TUI_IO_MAGIC ∧
     _IOC_TYPE k.TUI_IO_ACK = k.TUI_IO_MAGIC ∧
     _IOC_TYPE k.TUI_IO_INIT_DRIVER = k.TUI_IO_MAGIC ∧
     _IOC_TYPE k.TUI_IO_GET_BUFFER_INFO = k.TUI_IO_MAGIC ∧
     _IOC_TYPE k.TUI_IO_GET_ION_FD = k.TUI_IO_MAGIC) ∧
    (k.TUI_IO_NOTIFY ≠ k.TUI_IO_SET_RESOLUTION) ∧
    (k.TUI_IO_WAITCMD ≠ k.TUI_IO_SET_RESOLUTION ∧ k.TUI_IO_WAITCMD ≠ k.TUI_IO_NOTIFY) ∧
    (k.TUI_IO_ACK ≠ k.TUI_IO_SET_RESOLUTION ∧ k.TUI_IO_ACK ≠ k.TUI_IO_NOTIFY ∧
      k.TUI_IO_ACK ≠ k.TUI_IO_WAITCMD) ∧
    (k.TUI_IO_INIT_DRIVER ≠ k.TUI_IO_SET_RESOLUTION ∧
      k.TUI_IO_INIT_DRIVER ≠ k.TUI_IO_NOTIFY ∧ k.TUI_IO_INIT_DRIVER ≠ k.TUI_IO_WAITCMD ∧
      k.TUI_IO_INIT_DRIVER ≠ k.TUI_IO_ACK) ∧
    (k.TUI_IO_GET_BUFFER_INFO ≠ k.TUI_IO_SET_RESOLUTION ∧
      k.TUI_IO_GET_BUFFER_INFO ≠ k.TUI_IO_NOTIFY ∧
      k.TUI_IO_GET_BUFFER_INFO ≠ k.TUI_IO_WAITCMD ∧
      k.TUI_IO_GET_BUFFER_INFO ≠ k.TUI_IO_ACK ∧
      k.TUI_IO_GET_BUFFER_INFO ≠ k.TUI_IO_INIT_DRIVER) ∧
    (k.TUI_IO_GET_ION_FD ≠ k.TUI_IO_SET_RESOLUTION ∧
      k.TUI_IO_GET_ION_FD ≠ k.TUI_IO_NOTIFY ∧ k.TUI_IO_GET_ION_FD ≠ k.TUI_IO_WAITCMD ∧
      k.TUI_IO_GET_ION_FD ≠ k.TUI_IO_ACK ∧ k.TUI_IO_GET_ION_FD ≠ k.TUI_IO_INIT_DRIVER ∧
      k.TUI_IO_GET_ION_FD ≠ k.TUI_IO_GET_BUFFER_INFO) := by
  obtain ⟨hn, ht⟩ := h
  simp only [TuiConsts.requests, List.nodup_cons, List.mem_cons, List.mem_singleton,
    not_or, List.not_mem_nil, or_false, forall_eq_or_imp, forall_eq] at hn ht
  refine ⟨?_, ?_, ?_, ?_, ?_, ?_, ?_⟩
  · tauto
  all_goals (simp only [ne_eq, eq_comm]; tauto)

theorem tui_ioctl_set_resolution {σ : Type} (k : TuiConsts) (env : Env σ) (stk : Stack)
    (w : σ) (arg : Nat) (h : k.WellFormed) :
    tui_ioctl k env stk w k.TUI_IO_SET_RESOLUTION arg = ⟨0, w, []⟩ := by
  obtain ⟨ht, -⟩ := wellFormed_facts h
  simp [tui_ioctl, ht]

theorem tui_ioctl_notify {σ : Type} (k : TuiConsts) (env : Env σ) (stk : Stack)
    (w : σ) (arg : Nat) (h : k.WellFormed) :
    tui_ioctl k env stk w k.TUI_IO_NOTIFY arg =
      ⟨if (env.tlc_notify_event w arg).1 then 0 else -EFAULT,
        (env.tlc_notify_event w arg).2, [Call.tlc_notify_event arg]⟩ := by
  obtain ⟨ht, h1, -⟩ := wellFormed_facts h
  simp [tui_ioctl, ht, h1]

theorem tui_ioctl_waitcmd {σ : Type} (k : TuiConsts) (env : Env σ) (stk : Stack)
    (w : σ) (arg : Nat) (h : k.WellFormed) :
    tui_ioctl k env stk w k.TUI_IO_WAITCMD arg =
      if (env.tlc_wait_cmd w tlc_tui_command_t.zero).1 ≠ 0 then
        ⟨(env.tlc_wait_cmd w tlc_tui_command_t.zero).1,
          (env.tlc_wait_cmd w tlc_tui_command_t.zero).2.2, [Call.tlc_wait_cmd]⟩
      else
        ⟨if (env.copy_to_user (env.tlc_wait_cmd w tlc_tui_command_t.zero).2.2 arg
              (UserObj.command (env.tlc_wait_cmd w tlc_tui_command_t.zero).2.1)).1 ≠ 0
            then -EFAULT else 0,
          (env.copy_to_user (env.tlc_wait_cmd w tlc_tui_command_t.zero).2.2 arg
              (UserObj.command (env.tlc_wait_cmd w tlc_tui_command_t.zero).2.1)).2,
          [Call.tlc_wait_cmd, Call.copy_to_user arg
              (UserObj.command (env.tlc_wait_cmd w tlc_tui_command_t.zero).2.1)]⟩ := by
  obtain ⟨ht, -, h2, -⟩ := wellFormed_facts h
  simp [tui_ioctl, ht, h2]

theorem tui_ioctl_ack {σ : Type} (k : TuiConsts) (env : Env σ) (stk : Stack)
    (w : σ) (arg : Nat) (h : k.WellFormed) :
    tui_ioctl k env stk w k.TUI_IO_ACK arg =
      ⟨(env.tlc_ack_cmd (env.copy_from_user w stk.rsp_id arg).2.2
          (env.copy_from_user w stk.rsp_id arg).2.1).1,
        (env.tlc_ack_cmd (env.copy_from_user w stk.rsp_id arg).2.2
          (env.copy_from_user w stk.rsp_id arg).2.1).2,
        [Call.copy_from_user arg,
          Call.tlc_ack_cmd (env.copy_from_user w stk.rsp_id arg).2.1]⟩ := by
  obtain ⟨ht, -, -, h3, -⟩ := wellFormed_facts h
  simp [tui_ioctl, ht, h3]

theorem tui_ioctl_init_driver {σ : Type} (k : TuiConsts) (env : Env σ) (stk : Stack)
    (w : σ) (arg : Nat) (h : k.WellFormed) :
    tui_ioctl k env stk w k.TUI_IO_INIT_DRIVER arg =
      ⟨(env.tlc_init_driver w).1, (env.tlc_init_driver w).2, [Call.tlc_init_driver]⟩ := by
  obtain ⟨ht, -, -, -, h4, -⟩ := wellFormed_facts h
  simp [tui_ioctl, ht, h4]

theorem tui_ioctl_get_buffer_info {σ : Type} (k : TuiConsts) (env : Env σ) (stk : Stack)
    (w : σ) (arg : Nat) (h : k.WellFormed) :
    tui_ioctl k env stk w k.TUI_IO_GET_BUFFER_INFO arg =
      ⟨if (env.copy_to_user (env.get_buffer_info w stk.buff_info).2 arg
            (UserObj.buffer_info (env.get_buffer_info w stk.buff_info).1)).1 ≠ 0
          then -EFAULT else 0,
        (env.copy_to_user (env.get_buffer_info w stk.buff_info).2 arg
            (UserObj.buffer_info (env.get_buffer_info w stk.buff_info).1)).2,
        [Call.get_buffer_info, Call.copy_to_user arg
            (UserObj.buffer_info (env.get_buffer_info w stk.buff_info).1)]⟩ := by
  obtain ⟨ht, -, -, -, -, h5, -⟩ := wellFormed_facts h
  simp [tui_ioctl, ht, h5]

theorem tui_ioctl_get_ion_fd_none {σ : Type} (k : TuiConsts) (env : Env σ) (stk : Stack)
    (w : σ) (arg : Nat) (h : k.WellFormed) (hf : env.fptr_get_fd = none) :
    tui_ioctl k env stk w k.TUI_IO_GET_ION_FD arg =
      ⟨if (env.copy_to_user w arg (UserObj.ion stk.ion)).1 ≠ 0 then -EFAULT else 0,
        (env.copy_to_user w arg (UserObj.ion stk.ion)).2,
        [Call.copy_to_user arg (UserObj.ion stk.ion)]⟩ := by
  obtain ⟨ht, -, -, -, -, -, h6⟩ := wellFormed_facts h
  simp [tui_ioctl, ht, h6, hf]

theorem tui_ioctl_get_ion_fd_some {σ : Type} (k : TuiConsts) (env : Env σ) (stk : Stack)
    (w : σ) (arg : Nat) (h : k.WellFormed) (get_fd : σ → Nat → Int × σ)
    (hf : env.fptr_get_fd = some get_fd) :
    tui_ioctl k env stk w k.TUI_IO_GET_ION_FD arg =
      ⟨if (env.copy_to_user (get_fd w (env.dci_buff_id w)).2 arg
            (UserObj.ion ⟨(get_fd w (env.dci_buff_id w)).1⟩)).1 ≠ 0 then -EFAULT else 0,
        (env.copy_to_user (get_fd w (env.dci_buff_id w)).2 arg
            (UserObj.ion ⟨(get_fd w (env.dci_buff_id w)).1⟩)).2,
        [Call.fptr_get_fd (env.dci_buff_id w),
          Call.copy_to_user arg (UserObj.ion ⟨(get_fd w (env.dci_buff_id w)).1⟩)]⟩ := by
  obtain ⟨ht, -, -, -, -, -, h6⟩ := wellFormed_facts h
  simp [tui_ioctl, ht, h6, hf]

theorem tui_ioctl_bad_tag {σ : Type} (k : TuiConsts) (env : Env σ) (stk : Stack)
    (w : σ) (cmd arg : Nat) (h : _IOC_TYPE cmd ≠ k.TUI_IO_MAGIC) :
    tui_ioctl k env stk w cmd arg = ⟨-EINVAL, w, []⟩ := by
  simp [tui_ioctl, h]

theorem tui_ioctl_default {σ : Type} (k : TuiConsts) (env : Env σ) (stk : Stack)
    (w : σ) (cmd arg : Nat) (ht : _IOC_TYPE cmd = k.TUI_IO_MAGIC)
    (hc : cmd ∉ k.requests) :
    tui_ioctl k env stk w cmd arg = ⟨-ENOTTY, w, []⟩ := by
  simp only [TuiConsts.requests, List.mem_cons, List.mem_singleton, List.not_mem_nil,
    or_false, not_or] at hc
  obtain ⟨h0, h1, h2, h3, h4, h5, h6⟩ := hc
  simp [tui_ioctl, ht, h0, h1, h2, h3, h4, h5, h6]

theorem sampleConsts_wellFormed : sampleConsts.WellFormed := by decide

/-! ## Request validation -/

/-- C1: a request word whose family tag `_IOC_TYPE(cmd)` differs from `TUI_IO_MAGIC`
is answered with `-EINVAL`, for every operation code in the word, every argument,
every stack content and every state and behaviour of the collaborators; the world
is returned unchanged and the trace is empty, so no relay, directory, resolver or
copy function was called. -/
theorem tui_ioctl_wrong_family_tag {σ : Type} (k : TuiConsts) (env : Env σ)
    (stk : Stack) (w : σ) (cmd arg : Nat) (h : _IOC_TYPE cmd ≠ k.TUI_IO_MAGIC) :
    tui_ioctl k env stk w cmd arg = ⟨-EINVAL, w, []⟩ :=
  tui_ioctl_bad_tag k env stk w cmd arg h

theorem tui_ioctl_wrong_family_tag_witness :
    _IOC_TYPE 0x5502 ≠ sampleConsts.TUI_IO_MAGIC ∧
    _IOC_TYPE 0x5502ff ≠ sampleConsts.TUI_IO_MAGIC ∧
    tui_ioctl sampleConsts (sampleEnv none) sampleStack sampleWorld 0x5502 0x1000
      = ⟨-22, sampleWorld, []⟩ :=
  ⟨by decide, by decide,
    tui_ioctl_wrong_family_tag sampleConsts (sampleEnv none) sampleStack sampleWorld
      0x5502 0x1000 (by decide)⟩

/-- C2: a request word that carries the family tag `TUI_IO_MAGIC` and is none of
the seven `case` labels is answered with `-ENOTTY`, which is not success; the world
is returned unchanged and the trace is empty, so no collaborator was called. -/
theorem tui_ioctl_unknown_request {σ : Type} (k : TuiConsts) (env : Env σ)
    (stk : Stack) (w : σ) (cmd arg : Nat) (ht : _IOC_TYPE cmd = k.TUI_IO_MAGIC)
    (hc : cmd ∉ k.requests) :
    tui_ioctl k env stk w cmd arg = ⟨-ENOTTY, w, []⟩ ∧
    (tui_ioctl k env stk w cmd arg).ret ≠ 0 := by
  have e := tui_ioctl_default k env stk w cmd arg ht hc
  refine ⟨e, ?_⟩
  rw [e]
  simp [ENOTTY]

theorem tui_ioctl_unknown_request_witness :
    _IOC_TYPE 0x7409 = sampleConsts.TUI_IO_MAGIC ∧ 0x7409 ∉ sampleConsts.requests ∧
    tui_ioctl sampleConsts (sampleEnv none) sampleStack sampleWorld 0x7409 0x1000
      = ⟨-25, sampleWorld, []⟩ :=
  ⟨by decide, by decide,
    (tui_ioctl_unknown_request sampleConsts (sampleEnv none) sampleStack sampleWorld
      0x7409 0x1000 (by decide) (by decide)).1⟩

/-! ## Command retrieval and acknowledgment -/

/-- C8: on a `TUI_IO_WAITCMD` request, when `tlc_wait_cmd` reports a status `r`
different from zero the request returns exactly `r` and the only call made is
`tlc_wait_cmd` (nothing is copied to the caller); when `tlc_wait_cmd` reports zero
and leaves the Command `c`, and the copy to the caller succeeds, the request returns
zero and the object copied to the caller's address `arg` is the whole of `c`. -/
theorem tui_ioctl_waitcmd_outcomes {σ : Type} (k : TuiConsts) (env : Env σ)
    (stk : Stack) (w : σ) (arg : Nat) (hk : k.WellFormed) :
    (∀ (r : Int) (c : tlc_tui_command_t) (w1 : σ),
      env.tlc_wait_cmd w tlc_tui_command_t.zero = (r, c, w1) → r ≠ 0 →
      tui_ioctl k env stk w k.TUI_IO_WAITCMD arg = ⟨r, w1, [Call.tlc_wait_cmd]⟩) ∧
    (∀ (c : tlc_tui_command_t) (w1 w2 : σ),
      env.tlc_wait_cmd w tlc_tui_command_t.zero = (0, c, w1) →
      env.copy_to_user w1 arg (UserObj.command c) = (0, w2) →
      tui_ioctl k env stk w k.TUI_IO_WAITCMD arg =
        ⟨0, w2, [Call.tlc_wait_cmd, Call.copy_to_user arg (UserObj.command c)]⟩) := by
  constructor
  · intro r c w1 hw hr
    rw [tui_ioctl_waitcmd k env stk w arg hk, hw]
    simp [hr]
  · intro c w1 w2 hw hc
    rw [tui_ioctl_waitcmd k env stk w arg hk, hw]
    simp [hc]

theorem tui_ioctl_waitcmd_outcomes_witness :
    sampleConsts.WellFormed ∧
    tui_ioctl sampleConsts (sampleEnv none) sampleStack
        { sampleWorld with queue := [] } 0x7402 0x2000
      = ⟨-14, { sampleWorld with queue := [] }, [Call.tlc_wait_cmd]⟩ ∧
    tui_ioctl sampleConsts (sampleEnv none) sampleStack sampleWorld 0x7402 0x2000
      = ⟨0, ((sampleEnv none).copy_to_user
                ((sampleEnv none).tlc_wait_cmd sampleWorld tlc_tui_command_t.zero).2.2
                0x2000 (UserObj.command ⟨7, 0⟩)).2,
          [Call.tlc_wait_cmd, Call.copy_to_user 0x2000 (UserObj.command ⟨7, 0⟩)]⟩ ∧
    ((sampleEnv none).copy_to_user
        ((sampleEnv none).tlc_wait_cmd sampleWorld tlc_tui_command_t.zero).2.2
        0x2000 (UserObj.command ⟨7, 0⟩)).2.user_out
      = [(0x2000, UserObj.command ⟨7, 0⟩)] :=
  ⟨by decide,
    (tui_ioctl_waitcmd_outcomes sampleConsts (sampleEnv none) sampleStack
      { sampleWorld with queue := [] } 0x2000 (by decide)).1 (-14) ⟨0, 0⟩ _ rfl (by decide),
    (tui_ioctl_waitcmd_outcomes sampleConsts (sampleEnv none) sampleStack
      sampleWorld 0x2000 (by decide)).2 ⟨7, 0⟩ _ _ rfl rfl,
    by decide⟩

/-- On a `TUI_IO_ACK` request whose Acknowledgment `ack` is read from the
caller's address `arg`, the calls made are the read and one `tlc_ack_cmd` with
exactly `ack`; the request returns the status of that `tlc_ack_cmd` call, so it
returns zero if and only if the relay accepts, and a status different from zero
reported by the relay (a rejected identifier) is returned unchanged. -/
theorem tui_ioctl_ack_forwards {σ : Type} (k : TuiConsts) (env : Env σ)
    (stk : Stack) (w : σ) (arg : Nat) (hk : k.WellFormed)
    (ack : tlc_tui_response_t) (w1 : σ)
    (hread : env.copy_from_user w stk.rsp_id arg = (0, ack, w1)) :
    (tui_ioctl k env stk w k.TUI_IO_ACK arg).trace =
        [Call.copy_from_user arg, Call.tlc_ack_cmd ack] ∧
    (tui_ioctl k env stk w k.TUI_IO_ACK arg).ret = (env.tlc_ack_cmd w1 ack).1 ∧
    (tui_ioctl k env stk w k.TUI_IO_ACK arg).world = (env.tlc_ack_cmd w1 ack).2 ∧
    ((tui_ioctl k env stk w k.TUI_IO_ACK arg).ret = 0 ↔ (env.tlc_ack_cmd w1 ack).1 = 0) ∧
    (∀ r : Int, (env.tlc_ack_cmd w1 ack).1 = r → r ≠ 0 →
      (tui_ioctl k env stk w k.TUI_IO_ACK arg).ret = r ∧
      (tui_ioctl k env stk w k.TUI_IO_ACK arg).ret ≠ 0) := by
  rw [tui_ioctl_ack k env stk w arg hk, hread]
  refine ⟨rfl, rfl, rfl, Iff.rfl, ?_⟩
  intro r hr hne
  exact ⟨hr, by simpa [hr] using hne⟩

/-- C10: with a resolver `get_fd` registered, a `TUI_IO_GET_ION_FD` request whose
copy to the caller succeeds returns zero; the resolver is called once, with the
identifier `dci->buff_id` recorded by the directory, and the object copied to the
caller holds the value the resolver returned for that identifier.  Neither the
argument of the resolver nor the handle mentions `arg` or the stack. -/
theorem tui_ioctl_get_ion_fd_resolver {σ : Type} (k : TuiConsts) (env : Env σ)
    (stk : Stack) (w : σ) (arg : Nat) (hk : k.WellFormed)
    (get_fd : σ → Nat → Int × σ) (hf : env.fptr_get_fd = some get_fd) (w2 : σ)
    (hcopy : env.copy_to_user (get_fd w (env.dci_buff_id w)).2 arg
      (UserObj.ion ⟨(get_fd w (env.dci_buff_id w)).1⟩) = (0, w2)) :
    tui_ioctl k env stk w k.TUI_IO_GET_ION_FD arg =
      ⟨0, w2, [Call.fptr_get_fd (env.dci_buff_id w),
        Call.copy_to_user arg (UserObj.ion ⟨(get_fd w (env.dci_buff_id w)).1⟩)]⟩ := by
  rw [tui_ioctl_get_ion_fd_some k env stk w arg hk get_fd hf, hcopy]
  simp

theorem tui_ioctl_get_ion_fd_resolver_witness :
    sampleConsts.WellFormed ∧
    (tui_ioctl sampleConsts (sampleEnv (some (fun b => 40 + b))) sampleStack sampleWorld
        0x7407 0x3000).ret = 0 ∧
    (tui_ioctl sampleConsts (sampleEnv (some (fun b => 40 + b))) sampleStack sampleWorld
        0x7407 0x3000).trace =
      [Call.fptr_get_fd 3, Call.copy_to_user 0x3000 (UserObj.ion ⟨43⟩)] :=
  have e := tui_ioctl_get_ion_fd_resolver sampleConsts (sampleEnv (some (fun b => 40 + b)))
    sampleStack sampleWorld 0x3000 (by decide) (fun w b => (40 + b, w)) rfl _ rfl
  ⟨by decide, congrArg Outcome.ret e, congrArg Outcome.trace e⟩

theorem tui_ioctl_ack_forwards_witness :
    sampleConsts.WellFormed ∧
    (tui_ioctl sampleConsts (sampleEnv none) sampleStack afterInit
        sampleConsts.TUI_IO_WAITCMD 0x2000).trace =
      [Call.tlc_wait_cmd, Call.copy_to_user 0x2000 (UserObj.command ⟨7, 0⟩)] ∧
    (sampleEnv none).copy_from_user afterWait sampleStack.rsp_id 0x1000
      = (0, ⟨7⟩, afterWait) ∧
    (tui_ioctl sampleConsts (sampleEnv none) sampleStack afterWait
        sampleConsts.TUI_IO_ACK 0x1000).trace =
      [Call.copy_from_user 0x1000, Call.tlc_ack_cmd ⟨7⟩] ∧
    (tui_ioctl sampleConsts (sampleEnv none) sampleStack afterWait
        sampleConsts.TUI_IO_ACK 0x1000).ret = 0 ∧
    (tui_ioctl sampleConsts (sampleEnv none) sampleStack afterAck
        sampleConsts.TUI_IO_ACK 0x1000).trace =
      [Call.copy_from_user 0x1000, Call.tlc_ack_cmd ⟨7⟩] ∧
    (tui_ioctl sampleConsts (sampleEnv none) sampleStack afterAck
        sampleConsts.TUI_IO_ACK 0x1000).ret = -22 :=
  have h1 := tui_ioctl_ack_forwards sampleConsts (sampleEnv none) sampleStack afterWait
    0x1000 (by decide) ⟨7⟩ afterWait (by decide)
  have h2 := tui_ioctl_ack_forwards sampleConsts (sampleEnv none) sampleStack afterAck
    0x1000 (by decide) ⟨7⟩ afterAck (by decide)
  ⟨by decide, by decide, by decide, h1.1, h1.2.2.2.1.2 (by decide), h2.1,
    (h2.2.2.2.2 (-22) (by decide) (by decide)).1⟩

/-- C9: a `TUI_IO_ACK` request whose argument cannot be read supplies no
Acknowledgment, yet `tlc_ack_cmd` is still called, with the cleared kernel buffer.
While Command 7 awaits its acknowledgment the relay then rejects identifier 0 and the
request returns the relay status `-EINVAL` instead of `-EFAULT`; while Command 0
awaits its acknowledgment the relay accepts, the request returns zero and the
Command counts as acknowledged, for every stack content. -/
theorem tui_ioctl_ack_forwards_unread_buffer :
    afterWait.outstanding = some 7 ∧
    afterWait.user_acks.lookup 0x2000 = none ∧
    (∀ stk : Stack,
      ((sampleEnv none).copy_from_user afterWait stk.rsp_id 0x2000).1 ≠ 0 ∧
      (tui_ioctl sampleConsts (sampleEnv none) stk afterWait
          sampleConsts.TUI_IO_ACK 0x2000).trace =
        [Call.copy_from_user 0x2000, Call.tlc_ack_cmd ⟨0⟩] ∧
      (tui_ioctl sampleConsts (sampleEnv none) stk afterWait
          sampleConsts.TUI_IO_ACK 0x2000).ret = -22 ∧
      (tui_ioctl sampleConsts (sampleEnv none) stk awaitingAckZero
          sampleConsts.TUI_IO_ACK 0x2000).trace =
        [Call.copy_from_user 0x2000, Call.tlc_ack_cmd ⟨0⟩] ∧
      (tui_ioctl sampleConsts (sampleEnv none) stk awaitingAckZero
          sampleConsts.TUI_IO_ACK 0x2000).ret = 0 ∧
      (tui_ioctl sampleConsts (sampleEnv none) stk awaitingAckZero
          sampleConsts.TUI_IO_ACK 0x2000).world.outstanding = none) := by
  refine ⟨by decide, by decide, ?_⟩
  intro stk
  have e1 : (sampleEnv none).copy_from_user afterWait stk.rsp_id 0x2000 =
      (1, ⟨0⟩, afterWait) := rfl
  have e2 : (sampleEnv none).copy_from_user awaitingAckZero stk.rsp_id 0x2000 =
      (1, ⟨0⟩, awaitingAckZero) := rfl
  rw [tui_ioctl_ack sampleConsts (sampleEnv none) stk afterWait 0x2000 (by decide),
    tui_ioctl_ack sampleConsts (sampleEnv none) stk awaitingAckZero 0x2000 (by decide),
    e1, e2]
  exact ⟨by decide, by decide, by decide, by decide, by decide, by decide⟩

/-! ## Buffer handle without a resolver -/

/-- C5: with `fptr_get_fd` unset, whatever the variable `ion` held on entry is what
a `TUI_IO_GET_ION_FD` request copies to the caller: the request returns zero and
the handle delivered is the stack content, so two calls with different stack
contents deliver different handles. -/
theorem tui_ioctl_get_ion_fd_unset_copies_stack :
    (sampleEnv none).fptr_get_fd = none ∧
    (∀ stk : Stack,
      (tui_ioctl sampleConsts (sampleEnv none) stk sampleWorld
          sampleConsts.TUI_IO_GET_ION_FD 0x3000).ret = 0 ∧
      (tui_ioctl sampleConsts (sampleEnv none) stk sampleWorld
          sampleConsts.TUI_IO_GET_ION_FD 0x3000).trace =
        [Call.copy_to_user 0x3000 (UserObj.ion stk.ion)]) ∧
    (tui_ioctl sampleConsts (sampleEnv none) ⟨⟨0⟩, ⟨[]⟩, ⟨-1⟩⟩ sampleWorld
        sampleConsts.TUI_IO_GET_ION_FD 0x3000).trace =
      [Call.copy_to_user 0x3000 (UserObj.ion ⟨-1⟩)] ∧
    (tui_ioctl sampleConsts (sampleEnv none) ⟨⟨0⟩, ⟨[]⟩, ⟨1234⟩⟩ sampleWorld
        sampleConsts.TUI_IO_GET_ION_FD 0x3000).trace =
      [Call.copy_to_user 0x3000 (UserObj.ion ⟨1234⟩)] := by
  refine ⟨rfl, ?_, by decide, by decide⟩
  intro stk
  rw [tui_ioctl_get_ion_fd_none sampleConsts (sampleEnv none) stk sampleWorld 0x3000
    (by decide) rfl]
  exact ⟨rfl, rfl⟩

/-! ## Copy failures -/

/-- C6: a `TUI_IO_ACK` request whose read of the caller's memory fails, sent while
the relay accepts the identifier left in the kernel buffer, returns zero: the
failed copy is followed by the call to `tlc_ack_cmd`, whose status replaces
`-EFAULT`. -/
theorem tui_ioctl_ack_copy_failure_dropped :
    ((sampleEnv none).copy_from_user awaitingAckZero sampleStack.rsp_id 0x2000).1 ≠ 0 ∧
    (tui_ioctl sampleConsts (sampleEnv none) sampleStack awaitingAckZero
        sampleConsts.TUI_IO_ACK 0x2000).trace =
      [Call.copy_from_user 0x2000, Call.tlc_ack_cmd ⟨0⟩] ∧
    (tui_ioctl sampleConsts (sampleEnv none) sampleStack awaitingAckZero
        sampleConsts.TUI_IO_ACK 0x2000).ret = 0 ∧
    (tui_ioctl sampleConsts (sampleEnv none) sampleStack awaitingAckZero
        sampleConsts.TUI_IO_ACK 0x2000).ret ≠ -EFAULT := by
  decide

/-- On the three requests that copy to the caller, a failed copy is answered with
`-EFAULT`. -/
theorem tui_ioctl_copy_out_failure {σ : Type} (k : TuiConsts) (env : Env σ)
    (stk : Stack) (w : σ) (arg : Nat) (hk : k.WellFormed) :
    (∀ (c : tlc_tui_command_t) (w1 : σ),
      env.tlc_wait_cmd w tlc_tui_command_t.zero = (0, c, w1) →
      (env.copy_to_user w1 arg (UserObj.command c)).1 ≠ 0 →
      (tui_ioctl k env stk w k.TUI_IO_WAITCMD arg).ret = -EFAULT) ∧
    ((env.copy_to_user (env.get_buffer_info w stk.buff_info).2 arg
        (UserObj.buffer_info (env.get_buffer_info w stk.buff_info).1)).1 ≠ 0 →
      (tui_ioctl k env stk w k.TUI_IO_GET_BUFFER_INFO arg).ret = -EFAULT) ∧
    (env.fptr_get_fd = none → (env.copy_to_user w arg (UserObj.ion stk.ion)).1 ≠ 0 →
      (tui_ioctl k env stk w k.TUI_IO_GET_ION_FD arg).ret = -EFAULT) ∧
    (∀ get_fd : σ → Nat → Int × σ, env.fptr_get_fd = some get_fd →
      (env.copy_to_user (get_fd w (env.dci_buff_id w)).2 arg
        (UserObj.ion ⟨(get_fd w (env.dci_buff_id w)).1⟩)).1 ≠ 0 →
      (tui_ioctl k env stk w k.TUI_IO_GET_ION_FD arg).ret = -EFAULT) := by
  refine ⟨?_, ?_, ?_, ?_⟩
  · intro c w1 hw hc
    rw [tui_ioctl_waitcmd k env stk w arg hk, hw]
    simp [hc]
  · intro hc
    rw [tui_ioctl_get_buffer_info k env stk w arg hk]
    simp [hc]
  · intro hf hc
    rw [tui_ioctl_get_ion_fd_none k env stk w arg hk hf]
    simp [hc]
  · intro get_fd hf hc
    rw [tui_ioctl_get_ion_fd_some k env stk w arg hk get_fd hf]
    simp [hc]

/-! ## Status codes -/

/-- C7 (as stated, refuted): a NOTIFY request whose event the relay rejects
(DeliveryError) and a GET_BUFFER_INFO request whose copy to the caller fails
(boundary copy failure) return the same status value, `-EFAULT`. -/
theorem delivery_error_and_copy_failure_share_status :
    ((sampleEnv none).tlc_notify_event sampleWorld 5).1 = false ∧
    (tui_ioctl sampleConsts (sampleEnv none) sampleStack sampleWorld
        sampleConsts.TUI_IO_NOTIFY 5).ret = -14 ∧
    ((sampleEnv none).copy_to_user sampleWorld 0
        (UserObj.buffer_info sampleWorld.info)).1 ≠ 0 ∧
    (tui_ioctl sampleConsts (sampleEnv none) sampleStack sampleWorld
        sampleConsts.TUI_IO_GET_BUFFER_INFO 0).trace =
      [Call.get_buffer_info, Call.copy_to_user 0 (UserObj.buffer_info sampleWorld.info)] ∧
    (tui_ioctl sampleConsts (sampleEnv none) sampleStack sampleWorld
        sampleConsts.TUI_IO_GET_BUFFER_INFO 0).ret = -14 ∧
    (tui_ioctl sampleConsts (sampleEnv none) sampleStack sampleWorld
        sampleConsts.TUI_IO_NOTIFY 5).ret =
      (tui_ioctl sampleConsts (sampleEnv none) sampleStack sampleWorld
        sampleConsts.TUI_IO_GET_BUFFER_INFO 0).ret := by
  decide

/-- C7 (amended): every result of `tui_ioctl` is zero, or one of the three codes the
function produces itself, each with its cause -- `-EINVAL` for a wrong family tag,
`-ENOTTY` for a request outside the seven, `-EFAULT` for an event the relay rejects
and also for a failed copy to the caller -- or the status, different from zero, that
`tlc_wait_cmd`, `tlc_ack_cmd` or `tlc_init_driver` reported, returned unchanged.
The three codes are negative and pairwise different, and when the relay reports no
positive status no result is positive. -/
theorem tui_ioctl_failure_codes {σ : Type} (k : TuiConsts) (env : Env σ)
    (stk : Stack) (w : σ) (cmd arg : Nat) (hk : k.WellFormed) :
    ((tui_ioctl k env stk w cmd arg).ret = 0 ∨
     ((tui_ioctl k env stk w cmd arg).ret = -EINVAL ∧ _IOC_TYPE cmd ≠ k.TUI_IO_MAGIC) ∨
     ((tui_ioctl k env stk w cmd arg).ret = -ENOTTY ∧ _IOC_TYPE cmd = k.TUI_IO_MAGIC ∧
        cmd ∉ k.requests) ∨
     ((tui_ioctl k env stk w cmd arg).ret = -EFAULT ∧ cmd = k.TUI_IO_NOTIFY ∧
        (env.tlc_notify_event w arg).1 = false) ∨
     ((tui_ioctl k env stk w cmd arg).ret = -EFAULT ∧
        (cmd = k.TUI_IO_WAITCMD ∨ cmd = k.TUI_IO_GET_BUFFER_INFO ∨
          cmd = k.TUI_IO_GET_ION_FD) ∧
        ∃ (w1 : σ) (obj : UserObj), (env.copy_to_user w1 arg obj).1 ≠ 0 ∧
          (tui_ioctl k env stk w cmd arg).trace.getLast? =
            some (Call.copy_to_user arg obj)) ∨
     ((tui_ioctl k env stk w cmd arg).ret ≠ 0 ∧ cmd = k.TUI_IO_WAITCMD ∧
        (tui_ioctl k env stk w cmd arg).ret =
          (env.tlc_wait_cmd w tlc_tui_command_t.zero).1) ∨
     ((tui_ioctl k env stk w cmd arg).ret ≠ 0 ∧ cmd = k.TUI_IO_ACK ∧
        (tui_ioctl k env stk w cmd arg).ret =
          (env.tlc_ack_cmd (env.copy_from_user w stk.rsp_id arg).2.2
            (env.copy_from_user w stk.rsp_id arg).2.1).1) ∨
     ((tui_ioctl k env stk w cmd arg).ret ≠ 0 ∧ cmd = k.TUI_IO_INIT_DRIVER ∧
        (tui_ioctl k env stk w cmd arg).ret = (env.tlc_init_driver w).1)) ∧
    (-EINVAL < 0 ∧ -ENOTTY < 0 ∧ -EFAULT < 0 ∧
      -EINVAL ≠ -ENOTTY ∧ -EINVAL ≠ -EFAULT ∧ -ENOTTY ≠ -EFAULT) ∧
    ((∀ (w1 : σ) (c : tlc_tui_command_t), (env.tlc_wait_cmd w1 c).1 ≤ 0) →
      (∀ (w1 : σ) (a : tlc_tui_response_t), (env.tlc_ack_cmd w1 a).1 ≤ 0) →
      (∀ w1 : σ, (env.tlc_init_driver w1).1 ≤ 0) →
      (tui_ioctl k env stk w cmd arg).ret ≤ 0) := by
  have e1 : (-EINVAL : Int) ≤ 0 := by decide
  have e2 : (-ENOTTY : Int) ≤ 0 := by decide
  have e3 : (-EFAULT : Int) ≤ 0 := by decide
  refine (fun hd => ⟨hd, by decide, fun hw ha hi => ?_⟩) ?_
  · by_cases ht : _IOC_TYPE cmd = k.TUI_IO_MAGIC
    swap
    · right; left
      exact ⟨by rw [tui_ioctl_bad_tag k env stk w cmd arg ht], ht⟩
    by_cases hm : cmd ∈ k.requests
    swap
    · right; right; left
      exact ⟨by rw [tui_ioctl_default k env stk w cmd arg ht hm], ht, hm⟩
    simp only [TuiConsts.requests, List.mem_cons, List.mem_singleton, List.not_mem_nil,
      or_false] at hm
    rcases hm with h | h | h | h | h | h | h <;> subst h
    · left; rw [tui_ioctl_set_resolution k env stk w arg hk]
    · rw [tui_ioctl_notify k env stk w arg hk]
      cases hn : (env.tlc_notify_event w arg).1 <;> simp
    · rw [tui_ioctl_waitcmd k env stk w arg hk]
      by_cases hr : (env.tlc_wait_cmd w tlc_tui_command_t.zero).1 = 0
      · by_cases hc : (env.copy_to_user (env.tlc_wait_cmd w tlc_tui_command_t.zero).2.2
            arg (UserObj.command (env.tlc_wait_cmd w tlc_tui_command_t.zero).2.1)).1 = 0
        · left; simp [hr, hc]
        · right; right; right; right; left
          refine ⟨by simp [hr, hc], Or.inl rfl, _, _, hc, by simp [hr]⟩
      · right; right; right; right; right; left
        simp [hr]
    · rw [tui_ioctl_ack k env stk w arg hk]
      by_cases hr : (env.tlc_ack_cmd (env.copy_from_user w stk.rsp_id arg).2.2
            (env.copy_from_user w stk.rsp_id arg).2.1).1 = 0
      · left; exact hr
      · right; right; right; right; right; right; left
        exact ⟨hr, rfl, rfl⟩
    · rw [tui_ioctl_init_driver k env stk w arg hk]
      by_cases hr : (env.tlc_init_driver w).1 = 0
      · left; exact hr
      · right; right; right; right; right; right; right
        exact ⟨hr, rfl, rfl⟩
    · rw [tui_ioctl_get_buffer_info k env stk w arg hk]
      by_cases hc : (env.copy_to_user (env.get_buffer_info w stk.buff_info).2 arg
            (UserObj.buffer_info (env.get_buffer_info w stk.buff_info).1)).1 = 0
      · left; simp [hc]
      · right; right; right; right; left
        refine ⟨by simp [hc], Or.inr (Or.inl rfl), _, _, hc, by simp⟩
    · cases hf : env.fptr_get_fd with
      | none =>
        rw [tui_ioctl_get_ion_fd_none k env stk w arg hk hf]
        by_cases hc : (env.copy_to_user w arg (UserObj.ion stk.ion)).1 = 0
        · left; simp [hc]
        · right; right; right; right; left
          refine ⟨by simp [hc], Or.inr (Or.inr rfl), _, _, hc, by simp⟩
      | some get_fd =>
        rw [tui_ioctl_get_ion_fd_some k env stk w arg hk get_fd hf]
        by_cases hc : (env.copy_to_user (get_fd w (env.dci_buff_id w)).2 arg
            (UserObj.ion ⟨(get_fd w (env.dci_buff_id w)).1⟩)).1 = 0
        · left; simp [hc]
        · right; right; right; right; left
          refine ⟨by simp [hc], Or.inr (Or.inr rfl), _, _, hc, by simp⟩
  · rcases hd with h | ⟨h, -⟩ | ⟨h, -⟩ | ⟨h, -⟩ | ⟨h, -⟩ | ⟨-, -, h⟩ | ⟨-, -, h⟩ | ⟨-, -, h⟩
    · exact le_of_eq h
    · rw [h]; exact e1
    · rw [h]; exact e2
    · rw [h]; exact e3
    · rw [h]; exact e3
    · rw [h]; exact hw _ _
    · rw [h]; exact ha _ _
    · rw [h]; exact hi _

theorem tui_ioctl_failure_codes_witness :
    sampleConsts.WellFormed ∧
    (tui_ioctl sampleConsts (sampleEnv none) sampleStack sampleWorld
        sampleConsts.TUI_IO_NOTIFY 5).ret ≤ 0 :=
  ⟨by decide,
    (tui_ioctl_failure_codes sampleConsts (sampleEnv none) sampleStack sampleWorld
      sampleConsts.TUI_IO_NOTIFY 5 (by decide)).2.2
      (fun w1 c => by
        cases hq : w1.queue <;> simp [sampleEnv, hq, EFAULT])
      (fun w1 a => by
        by_cases hq : w1.outstanding = some a.id <;> simp [sampleEnv, hq, EINVAL])
      (fun w1 => by simp [sampleEnv])⟩

/-! ## Session counter -/

theorem atomic_wrap_add (x d : Int) : atomic_wrap (atomic_wrap x + d) = atomic_wrap (x + d) := by
  unfold atomic_wrap
  omega

theorem atomic_wrap_of_range (x : Int) (h0 : -2147483648 ≤ x) (h1 : x < 2147483648) :
    atomic_wrap x = x := by
  unfold atomic_wrap
  omega

theorem runFileOps_append {σ : Type} (k : TuiConsts) (env : Env σ) (w : σ)
    (pre : List FileOp) (op : FileOp) :
    runFileOps k env w (pre ++ [op]) = fileStep k env (runFileOps k env w pre) op := by
  simp [runFileOps, List.foldl_append]

theorem sessionCount_append_opened {σ : Type} (k : TuiConsts) (env : Env σ) (w : σ)
    (pre : List FileOp) :
    SessionCount k env w (pre ++ [FileOp.opened]) =
      atomic_wrap (SessionCount k env w pre + 1) := by
  simp [SessionCount, runFileOps_append, fileStep, tui_open, atomic_inc]

theorem sessionCount_append_released {σ : Type} (k : TuiConsts) (env : Env σ) (w : σ)
    (pre : List FileOp) :
    SessionCount k env w (pre ++ [FileOp.released]) =
      atomic_wrap (SessionCount k env w pre - 1) := by
  simp only [SessionCount, runFileOps_append, fileStep, tui_release, atomic_dec_and_test]
  split <;> rfl

theorem sessionCount_eq_wrap {σ : Type} (k : TuiConsts) (env : Env σ) (w : σ)
    (ops : List FileOp) :
    SessionCount k env w ops = atomic_wrap ((opens ops : Int) - (closes ops : Int)) := by
  induction ops using List.reverseRecOn with
  | nil => simp [SessionCount, runFileOps, tlc_tui_init, atomic_set, opens, closes]
  | append_singleton pre op ih =>
    cases op with
    | opened =>
      rw [sessionCount_append_opened, ih, atomic_wrap_add]
      congr 1
      simp [opens, closes, List.count_append]
      ring
    | released =>
      rw [sessionCount_append_released, ih, sub_eq_add_neg, atomic_wrap_add]
      congr 1
      simp [opens, closes, List.count_append]
      ring

/-- C3: for every finite sequence of `tui_open` and `tui_release` calls that the
device can receive after `tlc_tui_init` set the counter to zero -- every
`tui_release` follows a `tui_open` of its own, since the function is reached only as
the `.release` of an opened file, and fewer than 2^31 files are open at any point --
SessionCount at every point of the sequence is not negative and equals the number of
opens minus the number of closes performed so far. -/
theorem sessionCount_opens_minus_closes {σ : Type} (k : TuiConsts) (env : Env σ)
    (w : σ) (ops : List FileOp)
    (hpaired : ∀ m, m ≤ ops.length → closes (ops.take m) ≤ opens (ops.take m))
    (hlive : ∀ m, m ≤ ops.length →
      opens (ops.take m) - closes (ops.take m) < 2147483648)
    (n : Nat) :
    0 ≤ SessionCount k env w (ops.take n) ∧
    SessionCount k env w (ops.take n) =
      (opens (ops.take n) : Int) - (closes (ops.take n) : Int) := by
  have key : ∀ m, m ≤ ops.length →
      0 ≤ SessionCount k env w (ops.take m) ∧
      SessionCount k env w (ops.take m) =
        (opens (ops.take m) : Int) - (closes (ops.take m) : Int) := by
    intro m hm
    have h1 := hpaired m hm
    have h2 := hlive m hm
    have e := sessionCount_eq_wrap k env w (ops.take m)
    rw [atomic_wrap_of_range _ (by omega) (by omega)] at e
    exact ⟨by omega, e⟩
  by_cases hn : n ≤ ops.length
  · exact key n hn
  · have e : ops.take n = ops.take ops.length := by
      rw [List.take_of_length_le (by omega), List.take_length]
    rw [e]
    exact key ops.length (le_refl _)

theorem sessionCount_opens_minus_closes_witness :
    (∀ m, m ≤ [FileOp.opened, FileOp.opened, FileOp.released, FileOp.released].length →
      closes ([FileOp.opened, FileOp.opened, FileOp.released, FileOp.released].take m) ≤
        opens ([FileOp.opened, FileOp.opened, FileOp.released, FileOp.released].take m)) ∧
    0 ≤ SessionCount sampleConsts (sampleEnv none) sampleWorld
      ([FileOp.opened, FileOp.opened, FileOp.released, FileOp.released].take 3) ∧
    SessionCount sampleConsts (sampleEnv none) sampleWorld
      ([FileOp.opened, FileOp.opened, FileOp.released, FileOp.released].take 3) =
      (opens ([FileOp.opened, FileOp.opened, FileOp.released, FileOp.released].take 3) : Int)
        - (closes
          ([FileOp.opened, FileOp.opened, FileOp.released, FileOp.released].take 3) : Int) :=
  ⟨by decide,
    sessionCount_opens_minus_closes sampleConsts (sampleEnv none) sampleWorld
      [FileOp.opened, FileOp.opened, FileOp.released, FileOp.released]
      (by decide) (by decide) 3⟩

end TlcTui
